import Mathlib

/-!
Verification of the sustained-flight chart repository: a shallow embedding of
its coordinate-transform utilities, easing functions, grid generation,
animation state machine, dataset loader, and axis-mapping configuration,
with theorems settling the specification's testable properties.

JavaScript numbers are idealized as real numbers; `Math.pow` with fractional
exponents is `Real.rpow`.  Loop counters that accumulate rational steps are
idealized as exact rationals.
-/

open Real

noncomputable section

namespace Sustained

/-! ## utilities.js -/

/-- `GRAVITY` from utilities.js (m/s²). -/
def GRAVITY : ℝ := 9.8

/-- `MPS_TO_MPH` from utilities.js. -/
def MPS_TO_MPH : ℝ := 2.23694

/-- `MPH_TO_MPS` from utilities.js. -/
def MPH_TO_MPS : ℝ := 1 / MPS_TO_MPH

/-- `calculateK(rho, s, m)` from utilities.js: k = 0.5 * ρ * S / m. -/
def calculateK (rho s m : ℝ) : ℝ := 0.5 * rho * s / m

/-- A `{ vxs, vys }` speed pair as returned by `coeffToSS`. -/
structure SpeedPt where
  vxs : ℝ
  vys : ℝ

/-- A `{ cl, cd }` coefficient pair as returned by `ssToCoeff`. -/
structure CoeffPt where
  cl : ℝ
  cd : ℝ

open Classical in
/-- `coeffToSS(cl, cd, s, m, rho)` from utilities.js: converts coefficients
(CL, CD) to sustained speeds (VXS, VYS) in m/s, with an explicit zero-denominator
guard returning (0, 0). -/
def coeffToSS (cl cd s m rho : ℝ) : SpeedPt :=
  let k := calculateK rho s m
  let kl := cl * k / GRAVITY
  let kd := cd * k / GRAVITY
  let denom := (kl * kl + kd * kd) ^ (0.75 : ℝ)
  if denom = 0 then ⟨0, 0⟩
  else ⟨kl / denom, kd / denom⟩

open Classical in
/-- `ssToCoeff(vxs, vys, s, m, rho)` from utilities.js: converts sustained
speeds (VXS, VYS) in m/s to coefficients (CL, CD), with an explicit
zero-denominator guard returning (0, 0). -/
def ssToCoeff (vxs vys s m rho : ℝ) : CoeffPt :=
  let k := calculateK rho s m
  let denom := (vxs * vxs + vys * vys) ^ (1.5 : ℝ)
  if denom = 0 then ⟨0, 0⟩
  else
    let kl := vxs / denom
    let kd := vys / denom
    ⟨kl / k * GRAVITY, kd / k * GRAVITY⟩

/-- `mpsToMph(mps)` from utilities.js. -/
def mpsToMph (mps : ℝ) : ℝ := mps * MPS_TO_MPH

/-- `mphToMps(mph)` from utilities.js. -/
def mphToMps (mph : ℝ) : ℝ := mph * MPH_TO_MPS

/-! Closed-form reference definitions, written from the specification's words
(§4.1), used to compare the source functions against the spec (claim C3). -/

open Classical in
/-- Modelled from the spec: `coefficientsToSpeeds(cl, cd, S, m, ρ) → (vxs, vys)`:
compute k = 0.5·ρ·S/m; kl = cl·k/g, kd = cd·k/g; let D = (kl² + kd²)^0.75;
if D = 0 return (0,0); else return (kl/D, kd/D); g = 9.8. -/
def coefficientsToSpeedsSpec (cl cd S m rho : ℝ) : ℝ × ℝ :=
  let g : ℝ := 9.8
  let k := 0.5 * rho * S / m
  let kl := cl * k / g
  let kd := cd * k / g
  let D := (kl ^ 2 + kd ^ 2) ^ (0.75 : ℝ)
  if D = 0 then (0, 0) else (kl / D, kd / D)

open Classical in
/-- Modelled from the spec: `speedsToCoefficients(vxs, vys, S, m, ρ) → (cl, cd)`:
compute k = 0.5·ρ·S/m; D = (vxs²+vys²)^1.5; if D = 0 return (0,0);
else kl = vxs/D, kd = vys/D; return (kl/k·g, kd/k·g); g = 9.8. -/
def speedsToCoefficientsSpec (vxs vys S m rho : ℝ) : ℝ × ℝ :=
  let g : ℝ := 9.8
  let k := 0.5 * rho * S / m
  let D := (vxs ^ 2 + vys ^ 2) ^ (1.5 : ℝ)
  if D = 0 then (0, 0)
  else
    let kl := vxs / D
    let kd := vys / D
    (kl / k * g, kd / k * g)

/-! ## interpolation.js (easing functions, the revision cited by the spec:
`easeInOutExpo` with exponent 30·t − 15 and `easeZoom` with exponent ±20) -/

open Classical in
/-- `easeInOutExpo(t)` from interpolation.js: exponential ease-in-out with
explicit guards at t = 0 and t = 1 and a branch switch at t = 0.5. -/
def easeInOutExpo (t : ℝ) : ℝ :=
  if t = 0 then 0
  else if t = 1 then 1
  else if t < 0.5 then 0.5 * (2 : ℝ) ^ (30 * t - 15)
  else 1 - 0.5 * (2 : ℝ) ^ (-30 * t + 15)

open Classical in
/-- `easeZoom(t)` from interpolation.js: inverse ease (fast at the extremes,
slow in the middle), built from an ease-out half and an ease-in half. -/
def easeZoom (t : ℝ) : ℝ :=
  if t < 0.5 then 0.5 * (1 - (2 : ℝ) ^ (-20 * t))
  else 0.5 + 0.5 * (2 : ℝ) ^ (20 * (t - 1))

/-! ## chart-simple.js: animation state machine
(`switchCoordinateSystem` / `animateTransition`) -/

/-- The `currentView` field: 'speed' or 'coeff'. -/
inductive View where
  | speed
  | coeff
deriving DecidableEq

/-- The animation-relevant fields of the chart object:
`currentView`, `isAnimating`, `animationProgress`. -/
structure ChartAnim where
  currentView : View
  isAnimating : Bool
  animationProgress : ℝ

/-- The values captured by `animateTransition`'s closure: the target view and
`startProgress`, `targetProgress`, `startTime`. -/
structure Transition where
  targetView : View
  startProgress : ℝ
  targetProgress : ℝ
  startTime : ℝ

/-- `const duration = 6000` (milliseconds) in `animateTransition`. -/
def duration : ℝ := 6000

/-- `animateTransition(targetView)` from chart-simple.js up to the first
`requestAnimationFrame`: sets `isAnimating = true` and captures the closure
state (start progress, target progress 1 for 'coeff' / 0 for 'speed', and the
start timestamp `now`). -/
def animateTransition (st : ChartAnim) (targetView : View) (now : ℝ) :
    ChartAnim × Transition :=
  ({ st with isAnimating := true },
   { targetView := targetView
     startProgress := st.animationProgress
     targetProgress := if targetView = View.coeff then 1 else 0
     startTime := now })

open Classical in
/-- One call of the `animate(currentTime)` frame callback in
`animateTransition`: raw progress t = min(elapsed/duration, 1), eased via
`easeInOutExpo`, interpolated between start and target progress; when t
reaches 1 the state is snapped to the target idle state. -/
def animateFrame (tr : Transition) (st : ChartAnim) (currentTime : ℝ) : ChartAnim :=
  let elapsed := currentTime - tr.startTime
  let t := min (elapsed / duration) 1
  let easedT := easeInOutExpo t
  let st1 := { st with animationProgress :=
    tr.startProgress + (tr.targetProgress - tr.startProgress) * easedT }
  if t < 1 then st1
  else { st1 with
    isAnimating := false
    currentView := tr.targetView
    animationProgress := tr.targetProgress }

open Classical in
/-- The frame loop driven by `requestAnimationFrame`: runs `animateFrame` at
each supplied frame timestamp, re-queueing only while raw progress t < 1. -/
def runAnimation (tr : Transition) : ChartAnim → List ℝ → ChartAnim
  | st, [] => st
  | st, time :: rest =>
      let st1 := animateFrame tr st time
      if min ((time - tr.startTime) / duration) 1 < 1 then runAnimation tr st1 rest
      else st1

open Classical in
/-- `switchCoordinateSystem()` from chart-simple.js: a no-op while
`isAnimating`, otherwise starts a transition toward the opposite view.
Returns the updated state and the started transition closure, if any. -/
def switchCoordinateSystem (st : ChartAnim) (now : ℝ) : ChartAnim × Option Transition :=
  if st.isAnimating then (st, none)
  else
    let targetView := if st.currentView = View.speed then View.coeff else View.speed
    let p := animateTransition st targetView now
    (p.1, some p.2)

/-! ## dataLoader.js (`DataSetManager`) -/

/-- A JSON value as found in a parsed stallpoint array entry (JSON numerals
are exact decimals, hence rationals). -/
inductive Json where
  | num (q : ℚ)
  | str (s : String)
  | jbool (b : Bool)
  | jnull
deriving DecidableEq

/-- JS `typeof v === 'number'` for a parsed JSON field. -/
def Json.isNumber : Json → Bool
  | .num _ => true
  | _ => false

/-- Numeric value of a JSON field; only ever applied to fields that passed the
`typeof === 'number'` validation. -/
def Json.toNum : Json → ℝ
  | .num q => (q : ℝ)
  | _ => 0

/-- One element of the parsed stallpoint array: an object with `cl` and `cd`
fields (each an arbitrary JSON value until validated). -/
structure RawSample where
  cl : Json
  cd : Json
deriving DecidableEq

/-- The outcome of the regex/JSON stage of `parseStallpointData`:
either the `stallpoint:` marker is absent from the file text, or it is present
and the bracketed array JSON-parses into a list of samples. -/
inductive StallFile where
  | noMarker
  | marker (data : List RawSample)
deriving DecidableEq

/-- `parseStallpointData(fileContent)` from dataLoader.js: throws when the
marker is missing, when the array is empty, or when ANY point has a
non-numeric `cl` or `cd`; the catch block rethrows with the
`Failed to parse file: ` prefix. -/
def parseStallpointData : StallFile → Except String (List RawSample)
  | .noMarker => .error "Failed to parse file: No stallpoint data found in file"
  | .marker data =>
      if data.isEmpty then .error "Failed to parse file: Invalid stallpoint data format"
      else if data.all (fun p => p.cl.isNumber && p.cd.isNumber) then .ok data
      else .error "Failed to parse file: Invalid CL/CD values in data"

/-- A converted data point `{ vxs, vys, cl, cd }` (speeds in mph for display,
original coefficients kept for reference). -/
structure SpeedDataPt where
  vxs : ℝ
  vys : ℝ
  cl : ℝ
  cd : ℝ

/-- `convertToSpeedData(coeffData, rho, s, m)` from dataLoader.js.  The source
wraps each conversion in try/catch and skips a point only if `coeffToSS`
throws; `coeffToSS` is total and never throws, so every point is converted —
the map below is exact, no point is ever skipped. -/
def convertToSpeedData (coeffData : List RawSample) (rho s m : ℝ) : List SpeedDataPt :=
  coeffData.map fun p =>
    let speed := coeffToSS p.cl.toNum p.cd.toNum s m rho
    ⟨mpsToMph speed.vxs, mpsToMph speed.vys, p.cl.toNum, p.cd.toNum⟩

/-- A dataset record as stored in `this.datasets`. -/
structure Dataset where
  id : String
  name : String
  color : String
  visible : Bool
  coeffData : List RawSample
  speedData : List SpeedDataPt
  rho : ℝ
  s : ℝ
  m : ℝ

/-- The `DataSetManager` state: the `datasets` map (insertion-ordered
key/value pairs) and the `nextId` counter. -/
structure DataSetManager where
  datasets : List (String × Dataset)
  nextId : ℕ

/-- `addDataset(fileName, fileContent, rho, s, m, color)` from dataLoader.js:
parse, convert, then insert; on any failure the error is rethrown and the
manager state is left untouched (returned unchanged as the first component). -/
def addDataset (mgr : DataSetManager) (fileName : String) (file : StallFile)
    (rho s m : ℝ) (color : String) : DataSetManager × Except String String :=
  match parseStallpointData file with
  | .error e => (mgr, .error e)
  | .ok coeffData =>
      let speedData := convertToSpeedData coeffData rho s m
      if speedData.isEmpty then (mgr, .error "No valid data points after conversion")
      else
        let id := "dataset-" ++ toString mgr.nextId
        (⟨mgr.datasets ++
            [(id, ⟨id, fileName, color, true, coeffData, speedData, rho, s, m⟩)],
          mgr.nextId + 1⟩,
         .ok id)

/-! ## axisMapping.js (`AXIS_PRESETS`, `AxisMapping.setPreset`) -/

/-- One axis entry of a preset: `{ value, reversed, label, description }`. -/
structure AxisSpec where
  value : String
  reversed : Bool
  label : String
  description : String
deriving DecidableEq

/-- The `{ xAxis, yAxis }` pair of one chart space. -/
structure ChartAxes where
  xAxis : AxisSpec
  yAxis : AxisSpec
deriving DecidableEq

/-- A full named preset from `AXIS_PRESETS`. -/
structure AxisPreset where
  name : String
  description : String
  speedChart : ChartAxes
  coeffChart : ChartAxes
deriving DecidableEq

/-- `AXIS_PRESETS.default` from axisMapping.js. -/
def presetDefault : AxisPreset :=
  { name := "Default (Standard)"
    description := "VXS to X, VYS to Y; CD to X (rev), CL to Y (rev)"
    speedChart :=
      { xAxis := ⟨"vxs", false, "VXS", "horizontal speed"⟩
        yAxis := ⟨"vys", false, "VYS", "vertical speed"⟩ }
    coeffChart :=
      { xAxis := ⟨"cd", true, "CD", "drag coefficient"⟩
        yAxis := ⟨"cl", true, "CL", "lift coefficient"⟩ } }

/-- `AXIS_PRESETS.speedSwapped` from axisMapping.js. -/
def presetSpeedSwapped : AxisPreset :=
  { name := "Speed Axes Swapped"
    description := "VYS to X, VXS to Y; CD to X (rev), CL to Y (rev)"
    speedChart :=
      { xAxis := ⟨"vys", false, "VYS", "vertical speed"⟩
        yAxis := ⟨"vxs", false, "VXS", "horizontal speed"⟩ }
    coeffChart :=
      { xAxis := ⟨"cd", true, "CD", "drag coefficient"⟩
        yAxis := ⟨"cl", true, "CL", "lift coefficient"⟩ } }

/-- `AXIS_PRESETS.coeffSwapped` from axisMapping.js. -/
def presetCoeffSwapped : AxisPreset :=
  { name := "Coefficient Axes Swapped"
    description := "VXS to X, VYS to Y; CL to X (rev), CD to Y (rev)"
    speedChart :=
      { xAxis := ⟨"vxs", false, "VXS", "horizontal speed"⟩
        yAxis := ⟨"vys", false, "VYS", "vertical speed"⟩ }
    coeffChart :=
      { xAxis := ⟨"cl", true, "CL", "lift coefficient"⟩
        yAxis := ⟨"cd", true, "CD", "drag coefficient"⟩ } }

/-- `AXIS_PRESETS.bothSwapped` from axisMapping.js. -/
def presetBothSwapped : AxisPreset :=
  { name := "Both Axes Swapped"
    description := "VYS to X, VXS to Y; CL to X (rev), CD to Y (rev)"
    speedChart :=
      { xAxis := ⟨"vys", false, "VYS", "vertical speed"⟩
        yAxis := ⟨"vxs", false, "VXS", "horizontal speed"⟩ }
    coeffChart :=
      { xAxis := ⟨"cl", true, "CL", "lift coefficient"⟩
        yAxis := ⟨"cd", true, "CD", "drag coefficient"⟩ } }

/-- `AXIS_PRESETS.standard` from axisMapping.js. -/
def presetStandard : AxisPreset :=
  { name := "Standard Orientation"
    description := "VXS to X, VYS to Y; CD to X, CL to Y (no reversals)"
    speedChart :=
      { xAxis := ⟨"vxs", false, "VXS", "horizontal speed"⟩
        yAxis := ⟨"vys", false, "VYS", "vertical speed"⟩ }
    coeffChart :=
      { xAxis := ⟨"cd", false, "CD", "drag coefficient"⟩
        yAxis := ⟨"cl", false, "CL", "lift coefficient"⟩ } }

/-- `AXIS_PRESETS.polar` from axisMapping.js. -/
def presetPolar : AxisPreset :=
  { name := "Polar Style"
    description := "VXS to X, VYS to Y (rev); CD to X, CL to Y (rev)"
    speedChart :=
      { xAxis := ⟨"vxs", false, "VXS", "horizontal speed"⟩
        yAxis := ⟨"vys", true, "VYS", "vertical speed"⟩ }
    coeffChart :=
      { xAxis := ⟨"cd", false, "CD", "drag coefficient"⟩
        yAxis := ⟨"cl", true, "CL", "lift coefficient"⟩ } }

/-- The result of the JS bracket lookup `AXIS_PRESETS[presetName]` on the
object literal: an own property holding a preset, a truthy value inherited
from `Object.prototype` (a function, or the prototype object itself for
`__proto__`), or `undefined`. -/
inductive JsLookup where
  | own (p : AxisPreset)
  | inherited
  | undefined
deriving DecidableEq

/-- The property names the object literal inherits from `Object.prototype`;
bracket lookup at any of these yields a truthy value, not `undefined`. -/
def objectPrototypeKeys : List String :=
  ["constructor", "hasOwnProperty", "isPrototypeOf", "propertyIsEnumerable",
   "toLocaleString", "toString", "valueOf", "__proto__",
   "__defineGetter__", "__defineSetter__", "__lookupGetter__", "__lookupSetter__"]

/-- `AXIS_PRESETS[presetName]`: the preset object for the six own keys, a
truthy inherited value for `Object.prototype` property names, and `undefined`
for every other string. -/
def AXIS_PRESETS (key : String) : JsLookup :=
  match key with
  | "default" => .own presetDefault
  | "speedSwapped" => .own presetSpeedSwapped
  | "coeffSwapped" => .own presetCoeffSwapped
  | "bothSwapped" => .own presetBothSwapped
  | "standard" => .own presetStandard
  | "polar" => .own presetPolar
  | _ => if key ∈ objectPrototypeKeys then .inherited else .undefined

/-- The value stored in `this.config` by `setPreset`: `{...preset}` is a copy
of a real preset when the lookup found one, and an object with no own
enumerable properties when the lookup hit an inherited `Object.prototype`
member (functions and `Object.prototype` have no own enumerable props, so the
spread is empty). -/
inductive AxisConfig where
  | preset (p : AxisPreset)
  | emptySpread
deriving DecidableEq

/-- The fields set by `AxisMapping.setPreset`: `this.config` and
`this.currentPreset`. -/
structure AxisMappingState where
  config : AxisConfig
  currentPreset : String
deriving DecidableEq

/-- `AxisMapping.setPreset(presetName)` from axisMapping.js: `if (!preset)`
takes the fallback branch only when the bracket lookup is `undefined`
(falsy); any truthy lookup result — an own preset or an inherited
`Object.prototype` member — is spread into `this.config` and the given name
is reported. -/
def setPreset (presetName : String) : AxisMappingState :=
  match AXIS_PRESETS presetName with
  | .undefined => ⟨.preset presetDefault, "default"⟩
  | .own p => ⟨.preset p, presetName⟩
  | .inherited => ⟨.emptySpread, presetName⟩

/-- `AxisMapping.getPresetName()` from axisMapping.js. -/
def getPresetName (st : AxisMappingState) : String := st.currentPreset

/-- The two axis roles used as property keys in axisMapping.js. -/
inductive Axis where
  | xAxis
  | yAxis
deriving DecidableEq

/-- `config.speedChart[axis]` / `config.coeffChart[axis]` property lookup. -/
def ChartAxes.get : ChartAxes → Axis → AxisSpec
  | c, .xAxis => c.xAxis
  | c, .yAxis => c.yAxis

/-- `AxisMapping.getSpeedLabel(axis)` from axisMapping.js. -/
def getSpeedLabel (config : AxisPreset) (a : Axis) : String :=
  (config.speedChart.get a).label

/-- `AxisMapping.getCoeffLabel(axis, coeffType)` from axisMapping.js. -/
def getCoeffLabel (config : AxisPreset) (a : Axis) (coeffType : String) : String :=
  let baseLabel := (config.coeffChart.get a).label
  if coeffType = "k" then "K" ++ baseLabel.drop 1 else baseLabel

/-! ## chart-simple.js: `generateGrid`

JS `for (let v = start; v <= stop; v += step)` loops are idealized as exact
rational ranges (`jsRange`, and `jsRangeDown` for the decrementing glide
loops).  Numeric display formatting (`toFixed`) inside template-literal labels
is elided: labels use the plain decimal value. -/

/-- Fuel-bounded body of an incrementing JS for-loop over rationals. -/
def jsRangeAux (step stop : ℚ) : ℕ → ℚ → List ℚ
  | 0, _ => []
  | fuel + 1, v => if v ≤ stop then v :: jsRangeAux step stop fuel (v + step) else []

/-- `for (let v = start; v <= stop; v += step)`: the sequence of loop values. -/
def jsRange (start step stop : ℚ) : List ℚ :=
  jsRangeAux step stop (((stop - start) / step).ceil.toNat + 1) start

/-- Fuel-bounded body of a decrementing JS for-loop over rationals. -/
def jsRangeDownAux (step stop : ℚ) : ℕ → ℚ → List ℚ
  | 0, _ => []
  | fuel + 1, v => if stop ≤ v then v :: jsRangeDownAux step stop fuel (v - step) else []

/-- `for (let v = start; v >= stop; v -= step)`: the sequence of loop values. -/
def jsRangeDown (start step stop : ℚ) : List ℚ :=
  jsRangeDownAux step stop (((start - stop) / step).ceil.toNat + 1) start

/-- The `this.colors` record of the chart. -/
structure Colors where
  lift : String
  drag : String
  horizontal : String
  vertical : String
  glide1 : String
  glide2 : String
  glide3 : String
  background : String
  legend : String

/-- One entry of `this.allLines`: parallel speed/coefficient point lists plus
presentation fields. -/
structure GridLine where
  speedPoints : List SpeedPt
  coeffPoints : List CoeffPt
  color : String
  type : String
  label : String
  labelValue : ℚ

/-- The common body of every speed-driven loop in `generateGrid`: for each
(vxs, vys) sample (in mph) push the speed point and its `ssToCoeff` image
(converted to m/s first). -/
def speedGridLine (s m rho : ℝ) (pts : List (ℚ × ℚ)) (color ty label : String)
    (lv : ℚ) : GridLine :=
  { speedPoints := pts.map fun p => ⟨(p.1 : ℝ), (p.2 : ℝ)⟩
    coeffPoints := pts.map fun p =>
      ssToCoeff (mphToMps (p.1 : ℝ)) (mphToMps (p.2 : ℝ)) s m rho
    color := color
    type := ty
    label := label
    labelValue := lv }

/-- The common body of every coefficient-driven loop in `generateGrid`: for
each (cl, cd) sample push the coefficient point and its `coeffToSS` image
(converted to mph for display). -/
def coeffGridLine (s m rho : ℝ) (pts : List (ℚ × ℚ)) (color ty label : String)
    (lv : ℚ) : GridLine :=
  { speedPoints := pts.map fun p =>
      let speed := coeffToSS (p.1 : ℝ) (p.2 : ℝ) s m rho
      ⟨mpsToMph speed.vxs, mpsToMph speed.vys⟩
    coeffPoints := pts.map fun p => ⟨(p.1 : ℝ), (p.2 : ℝ)⟩
    color := color
    type := ty
    label := label
    labelValue := lv }

/-- `SimpleChart.generateGrid()` from chart-simple.js: the full `this.allLines`
list, in source order — outer/inner speed grids, outer coefficient grid with
extended segments, extended (canopy) coefficient grid per quadrant, connecting
segments, and glide rays per quadrant. -/
def generateGrid (s m rho : ℝ) (colors : Colors) (am : AxisPreset) : List GridLine :=
  let speedYLabel := getSpeedLabel am Axis.yAxis
  let speedXLabel := getSpeedLabel am Axis.xAxis
  let coeffYLabel := getCoeffLabel am Axis.yAxis "c"
  let coeffXLabel := getCoeffLabel am Axis.xAxis "c"
  ((jsRange (-150) 30 150).map fun vys =>
    speedGridLine s m rho ((jsRange (-150) 5 150).map fun vxs => (vxs, vys))
      colors.vertical "horizontal" (speedYLabel ++ "=" ++ toString vys) vys) ++
  ((jsRange (-150) 30 150).map fun vxs =>
    speedGridLine s m rho ((jsRange (-150) 5 150).map fun vys => (vxs, vys))
      colors.horizontal "vertical" (speedXLabel ++ "=" ++ toString vxs) vxs) ++
  (([-30, -20, -10, 10, 20, 30] : List ℚ).map fun vys =>
    speedGridLine s m rho ((jsRange (-150) 5 150).map fun vxs => (vxs, vys))
      colors.vertical "horizontal-inner" (speedYLabel ++ "=" ++ toString vys) vys) ++
  (([-30, -20, -10, 10, 20, 30] : List ℚ).map fun vxs =>
    speedGridLine s m rho ((jsRange (-150) 5 150).map fun vys => (vxs, vys))
      colors.horizontal "vertical-inner" (speedXLabel ++ "=" ++ toString vxs) vxs) ++
  ((jsRange (-1) 0.2 1).flatMap fun cl =>
    coeffGridLine s m rho ((jsRange (-1) 0.05 1).map fun cd => (cl, cd))
      colors.lift "coeff-horizontal" (coeffYLabel ++ "=" ++ toString cl) cl ::
    (if cl ≠ 0 then
      [coeffGridLine s m rho ((jsRange 0.95 0.1 10).map fun cd => (cl, cd))
         colors.lift "coeff-horizontal" ("CL=" ++ toString cl) cl,
       coeffGridLine s m rho ((jsRange (-10) 0.1 (-0.95)).map fun cd => (cl, cd))
         colors.lift "coeff-horizontal" ("CL=" ++ toString cl) cl]
     else [])) ++
  ((jsRange (-1) 0.2 1).flatMap fun cd =>
    coeffGridLine s m rho ((jsRange (-1) 0.05 1).map fun cl => (cl, cd))
      colors.drag "coeff-vertical" (coeffXLabel ++ "=" ++ toString cd) cd ::
    (if cd ≠ 0 then
      [coeffGridLine s m rho ((jsRange 0.95 0.1 10).map fun cl => (cl, cd))
         colors.drag "coeff-vertical" ("CD=" ++ toString cd) cd,
       coeffGridLine s m rho ((jsRange (-10) 0.1 (-0.95)).map fun cl => (cl, cd))
         colors.drag "coeff-vertical" ("CD=" ++ toString cd) cd]
     else [])) ++
  ((jsRange 1 1 10).flatMap fun cl =>
    [coeffGridLine s m rho ((jsRange 1 0.1 10).map fun cd => (cl, cd))
       colors.lift "coeff-horizontal" ("CL=" ++ toString cl) cl,
     coeffGridLine s m rho ((jsRange (-10) 0.1 (-1)).map fun cd => (cl, cd))
       colors.lift "coeff-horizontal" ("CL=" ++ toString cl) cl,
     coeffGridLine s m rho ((jsRange (-10) 0.1 (-1)).map fun cd => (-cl, cd))
       colors.lift "coeff-horizontal" ("CL=" ++ toString (-cl)) (-cl),
     coeffGridLine s m rho ((jsRange 1 0.1 10).map fun cd => (-cl, cd))
       colors.lift "coeff-horizontal" ("CL=" ++ toString (-cl)) (-cl)]) ++
  ((jsRange 1 1 10).flatMap fun cd =>
    [coeffGridLine s m rho ((jsRange 1 0.1 10).map fun cl => (cl, cd))
       colors.drag "coeff-vertical" ("CD=" ++ toString cd) cd,
     coeffGridLine s m rho ((jsRange (-10) 0.1 (-1)).map fun cl => (cl, cd))
       colors.drag "coeff-vertical" ("CD=" ++ toString cd) cd,
     coeffGridLine s m rho ((jsRange (-10) 0.1 (-1)).map fun cl => (cl, -cd))
       colors.drag "coeff-vertical" ("CD=" ++ toString (-cd)) (-cd),
     coeffGridLine s m rho ((jsRange 1 0.1 10).map fun cl => (cl, -cd))
       colors.drag "coeff-vertical" ("CD=" ++ toString (-cd)) (-cd)]) ++
  ((jsRange 1 1 10).flatMap fun cl =>
    [coeffGridLine s m rho ((jsRange (-1) 0.05 1).map fun cd => (cl, cd))
       colors.lift "coeff-horizontal" ("CL=" ++ toString cl) cl,
     coeffGridLine s m rho ((jsRange (-1) 0.05 1).map fun cd => (-cl, cd))
       colors.lift "coeff-horizontal" ("CL=" ++ toString (-cl)) (-cl)]) ++
  ((jsRange 1 1 10).flatMap fun cd =>
    [coeffGridLine s m rho ((jsRange (-1) 0.05 1).map fun cl => (cl, cd))
       colors.drag "coeff-vertical" ("CD=" ++ toString cd) cd,
     coeffGridLine s m rho ((jsRange (-1) 0.05 1).map fun cl => (cl, -cd))
       colors.drag "coeff-vertical" ("CD=" ++ toString (-cd)) (-cd)]) ++
  (([(1, colors.glide1, "1:1 glide"), (2, colors.glide2, "2:1 glide"),
     (3, colors.glide3, "3:1 glide")] : List (ℚ × String × String)).flatMap fun gr =>
    [speedGridLine s m rho ((jsRange 0 5 150).map fun vxs => (vxs, vxs / gr.1))
       gr.2.1 "glide" gr.2.2 gr.1,
     speedGridLine s m rho ((jsRangeDown 0 5 (-150)).map fun vxs => (vxs, -vxs / gr.1))
       gr.2.1 "glide" gr.2.2 gr.1,
     speedGridLine s m rho ((jsRangeDown 0 5 (-150)).map fun vxs => (vxs, vxs / gr.1))
       gr.2.1 "glide" gr.2.2 gr.1,
     speedGridLine s m rho ((jsRange 0 5 150).map fun vxs => (vxs, -vxs / gr.1))
       gr.2.1 "glide" gr.2.2 gr.1])

/-- The curve pairing invariant: equal lengths, and each index is related by
the physics transform in one direction or the other (exact in the real-number
model, hence within any tolerance). -/
def Paired (s m rho : ℝ) (L : GridLine) : Prop :=
  L.speedPoints.length = L.coeffPoints.length ∧
  ∀ i (hsb : i < L.speedPoints.length) (hcb : i < L.coeffPoints.length),
    L.coeffPoints[i] =
      ssToCoeff (mphToMps (L.speedPoints[i]).vxs) (mphToMps (L.speedPoints[i]).vys)
        s m rho ∨
    L.speedPoints[i] =
      ⟨mpsToMph (coeffToSS (L.coeffPoints[i]).cl (L.coeffPoints[i]).cd s m rho).vxs,
       mpsToMph (coeffToSS (L.coeffPoints[i]).cl (L.coeffPoints[i]).cd s m rho).vys⟩

end Sustained

end

namespace Sustained

/-! ## Basic facts about the transforms -/

theorem coeffToSS_def (cl cd s m rho : ℝ) :
    coeffToSS cl cd s m rho =
      (let k := calculateK rho s m
       let kl := cl * k / GRAVITY
       let kd := cd * k / GRAVITY
       let denom := (kl * kl + kd * kd) ^ (0.75 : ℝ)
       if denom = 0 then ⟨0, 0⟩ else ⟨kl / denom, kd / denom⟩) := rfl

theorem ssToCoeff_def (vxs vys s m rho : ℝ) :
    ssToCoeff vxs vys s m rho =
      (let k := calculateK rho s m
       let denom := (vxs * vxs + vys * vys) ^ (1.5 : ℝ)
       if denom = 0 then ⟨0, 0⟩
       else ⟨vxs / denom / k * GRAVITY, vys / denom / k * GRAVITY⟩) := rfl

/-- At the origin both transforms take the zero-denominator branch. -/
theorem coeffToSS_zero (s m rho : ℝ) : coeffToSS 0 0 s m rho = ⟨0, 0⟩ := by
  simp [coeffToSS]

theorem ssToCoeff_zero (s m rho : ℝ) : ssToCoeff 0 0 s m rho = ⟨0, 0⟩ := by
  simp [ssToCoeff]

/-- Algebraic core of the round trip: for a nonzero (kl, kd) vector, dividing by
`(kl²+kd²)^0.75` and then by the resulting squared norm raised to `1.5`
recovers kl and kd exactly. -/
theorem roundtrip_core (kl kd : ℝ) (hq : 0 < kl * kl + kd * kd) :
    kl / (kl * kl + kd * kd) ^ (0.75 : ℝ) /
        ((kl / (kl * kl + kd * kd) ^ (0.75 : ℝ) * (kl / (kl * kl + kd * kd) ^ (0.75 : ℝ)) +
          kd / (kl * kl + kd * kd) ^ (0.75 : ℝ) * (kd / (kl * kl + kd * kd) ^ (0.75 : ℝ))) ^ (1.5 : ℝ)) = kl ∧
    kd / (kl * kl + kd * kd) ^ (0.75 : ℝ) /
        ((kl / (kl * kl + kd * kd) ^ (0.75 : ℝ) * (kl / (kl * kl + kd * kd) ^ (0.75 : ℝ)) +
          kd / (kl * kl + kd * kd) ^ (0.75 : ℝ) * (kd / (kl * kl + kd * kd) ^ (0.75 : ℝ))) ^ (1.5 : ℝ)) = kd := by
  set q : ℝ := kl * kl + kd * kd with hqdef
  set D : ℝ := q ^ (0.75 : ℝ) with hDdef
  have hDpos : 0 < D := Real.rpow_pos_of_pos hq _
  have hsum : kl / D * (kl / D) + kd / D * (kd / D) = q ^ (-(0.5) : ℝ) := by
    have hDD : D * D = q ^ (1.5 : ℝ) := by
      rw [hDdef, ← Real.rpow_add hq]; norm_num
    have h1 : kl / D * (kl / D) + kd / D * (kd / D) = q / (D * D) := by
      field_simp
    rw [h1, hDD]
    rw [show (q / q ^ (1.5 : ℝ) : ℝ) = q ^ (1 : ℝ) / q ^ (1.5 : ℝ) by rw [Real.rpow_one],
      ← Real.rpow_sub hq]
    norm_num
  have hinner : (q ^ (-(0.5) : ℝ)) ^ (1.5 : ℝ) = q ^ (-(0.75) : ℝ) := by
    rw [← Real.rpow_mul hq.le]; norm_num
  have hcancel : D * q ^ (-(0.75) : ℝ) = 1 := by
    rw [hDdef, ← Real.rpow_add hq]; norm_num
  constructor
  · rw [hsum, hinner, div_div, hcancel, div_one]
  · rw [hsum, hinner, div_div, hcancel, div_one]

/-- The exact round trip: for S, m, ρ > 0 the composite
`ssToCoeff ∘ coeffToSS` is the identity on coefficient pairs. -/
theorem roundtrip_exact (cl cd s m rho : ℝ) (hs : 0 < s) (hm : 0 < m) (hrho : 0 < rho) :
    ssToCoeff (coeffToSS cl cd s m rho).vxs (coeffToSS cl cd s m rho).vys s m rho =
      ⟨cl, cd⟩ := by
  have hg : (0 : ℝ) < GRAVITY := by norm_num [GRAVITY]
  have hk : 0 < calculateK rho s m := by
    unfold calculateK
    positivity
  set k : ℝ := calculateK rho s m with hkdef
  by_cases h0 : cl = 0 ∧ cd = 0
  · obtain ⟨rfl, rfl⟩ := h0
    rw [coeffToSS_zero, ssToCoeff_zero]
  · set kl : ℝ := cl * k / GRAVITY with hkl
    set kd : ℝ := cd * k / GRAVITY with hkd
    have hq : 0 < kl * kl + kd * kd := by
      rcases lt_or_eq_of_le (add_nonneg (mul_self_nonneg kl) (mul_self_nonneg kd)) with h | h
      · exact h
      · exfalso
        have h1 : kl * kl = 0 ∧ kd * kd = 0 := by
          constructor
          · nlinarith [mul_self_nonneg kl, mul_self_nonneg kd]
          · nlinarith [mul_self_nonneg kl, mul_self_nonneg kd]
        have hkl0 : kl = 0 := by
          have := h1.1
          nlinarith
        have hkd0 : kd = 0 := by
          have := h1.2
          nlinarith
        apply h0
        constructor
        · have : cl * k = 0 := by
            have := hkl0
            rw [hkl, div_eq_zero_iff] at this
            rcases this with h' | h'
            · exact h'
            · exact absurd h' hg.ne'
          rcases mul_eq_zero.1 this with h' | h'
          · exact h'
          · exact absurd h' hk.ne'
        · have : cd * k = 0 := by
            have := hkd0
            rw [hkd, div_eq_zero_iff] at this
            rcases this with h' | h'
            · exact h'
            · exact absurd h' hg.ne'
          rcases mul_eq_zero.1 this with h' | h'
          · exact h'
          · exact absurd h' hk.ne'
    have hD : ((kl * kl + kd * kd) ^ (0.75 : ℝ)) ≠ 0 :=
      (Real.rpow_pos_of_pos hq _).ne'
    have hfwd : coeffToSS cl cd s m rho =
        ⟨kl / (kl * kl + kd * kd) ^ (0.75 : ℝ), kd / (kl * kl + kd * kd) ^ (0.75 : ℝ)⟩ := by
      rw [coeffToSS_def]
      simp only [← hkdef, ← hkl, ← hkd]
      rw [if_neg hD]
    rw [hfwd]
    obtain ⟨hL, hR⟩ := roundtrip_core kl kd hq
    have hsumpos : 0 <
        kl / (kl * kl + kd * kd) ^ (0.75 : ℝ) * (kl / (kl * kl + kd * kd) ^ (0.75 : ℝ)) +
          kd / (kl * kl + kd * kd) ^ (0.75 : ℝ) * (kd / (kl * kl + kd * kd) ^ (0.75 : ℝ)) := by
      rcases lt_or_eq_of_le
          (add_nonneg (mul_self_nonneg (kl / (kl * kl + kd * kd) ^ (0.75 : ℝ)))
            (mul_self_nonneg (kd / (kl * kl + kd * kd) ^ (0.75 : ℝ)))) with h | h
      · exact h
      · exfalso
        have hkl0 : kl / (kl * kl + kd * kd) ^ (0.75 : ℝ) = 0 := by
          nlinarith [mul_self_nonneg (kl / (kl * kl + kd * kd) ^ (0.75 : ℝ)),
            mul_self_nonneg (kd / (kl * kl + kd * kd) ^ (0.75 : ℝ))]
        have hkd0 : kd / (kl * kl + kd * kd) ^ (0.75 : ℝ) = 0 := by
          nlinarith [mul_self_nonneg (kl / (kl * kl + kd * kd) ^ (0.75 : ℝ)),
            mul_self_nonneg (kd / (kl * kl + kd * kd) ^ (0.75 : ℝ))]
        have : kl = 0 := by
          rw [div_eq_zero_iff] at hkl0
          rcases hkl0 with h' | h'
          · exact h'
          · exact absurd h' hD
        have : kd = 0 := by
          rw [div_eq_zero_iff] at hkd0
          rcases hkd0 with h' | h'
          · exact h'
          · exact absurd h' hD
        nlinarith
    have hD2 : (kl / (kl * kl + kd * kd) ^ (0.75 : ℝ) * (kl / (kl * kl + kd * kd) ^ (0.75 : ℝ)) +
          kd / (kl * kl + kd * kd) ^ (0.75 : ℝ) * (kd / (kl * kl + kd * kd) ^ (0.75 : ℝ))) ^ (1.5 : ℝ) ≠ 0 :=
      (Real.rpow_pos_of_pos hsumpos _).ne'
    rw [ssToCoeff_def]
    simp only [← hkdef]
    rw [if_neg hD2]
    have hclv : kl / k * GRAVITY = cl := by
      rw [hkl]
      field_simp
      ring
    have hcdv : kd / k * GRAVITY = cd := by
      rw [hkd]
      field_simp
      ring
    rw [hL, hR, hclv, hcdv]

/-- C1: for every (cl, cd) with |cl| < 10 and |cd| < 10 and every S, m, ρ > 0,
`ssToCoeff` applied to the result of `coeffToSS` reproduces (cl, cd) — in the
real-number model exactly, hence a fortiori within 1e-6 relative tolerance —
and the input (0, 0) maps to (0, 0) exactly in both directions. -/
theorem claim_C1_roundtrip (cl cd s m rho : ℝ)
    (hcl : |cl| < 10) (hcd : |cd| < 10) (hs : 0 < s) (hm : 0 < m) (hrho : 0 < rho) :
    ssToCoeff (coeffToSS cl cd s m rho).vxs (coeffToSS cl cd s m rho).vys s m rho = ⟨cl, cd⟩ ∧
    |(ssToCoeff (coeffToSS cl cd s m rho).vxs (coeffToSS cl cd s m rho).vys s m rho).cl - cl| ≤
      1e-6 * |cl| ∧
    |(ssToCoeff (coeffToSS cl cd s m rho).vxs (coeffToSS cl cd s m rho).vys s m rho).cd - cd| ≤
      1e-6 * |cd| ∧
    coeffToSS 0 0 s m rho = ⟨0, 0⟩ ∧ ssToCoeff 0 0 s m rho = ⟨0, 0⟩ := by
  have h := roundtrip_exact cl cd s m rho hs hm hrho
  refine ⟨h, ?_, ?_, coeffToSS_zero s m rho, ssToCoeff_zero s m rho⟩
  · rw [h]
    simp
    positivity
  · rw [h]
    simp
    positivity

/-- Witness for C1 at the spec's scenario ρ=1, S=2, m=70, cl=0.486, cd=0.485. -/
theorem claim_C1_roundtrip_witness :
    ssToCoeff (coeffToSS 0.486 0.485 2 70 1).vxs (coeffToSS 0.486 0.485 2 70 1).vys 2 70 1 =
      ⟨0.486, 0.485⟩ :=
  (claim_C1_roundtrip 0.486 0.485 2 70 1 (by rw [abs_lt]; constructor <;> norm_num)
    (by rw [abs_lt]; constructor <;> norm_num) (by norm_num) (by norm_num) (by norm_num)).1

/-- C2: for every S, m, ρ > 0 both transforms map the origin exactly to (0, 0):
the zero-denominator branch is taken (both denominators evaluate to 0, shown by
the last two conjuncts), and in the real-number model the result is the genuine
pair (0, 0) — no NaN/Infinity is produced. -/
theorem claim_C2_zero_handling (s m rho : ℝ) (hs : 0 < s) (hm : 0 < m) (hrho : 0 < rho) :
    coeffToSS 0 0 s m rho = ⟨0, 0⟩ ∧ ssToCoeff 0 0 s m rho = ⟨0, 0⟩ ∧
    ((0 * calculateK rho s m / GRAVITY) * (0 * calculateK rho s m / GRAVITY) +
      (0 * calculateK rho s m / GRAVITY) * (0 * calculateK rho s m / GRAVITY)) ^ (0.75 : ℝ) = 0 ∧
    (((0 : ℝ) * 0 + 0 * 0)) ^ (1.5 : ℝ) = 0 := by
  refine ⟨coeffToSS_zero s m rho, ssToCoeff_zero s m rho, ?_, ?_⟩
  · norm_num
  · norm_num

/-- Witness for C2 at S = 2, m = 70, ρ = 1. -/
theorem claim_C2_zero_handling_witness :
    coeffToSS 0 0 2 70 1 = ⟨0, 0⟩ ∧ ssToCoeff 0 0 2 70 1 = ⟨0, 0⟩ :=
  ⟨(claim_C2_zero_handling 2 70 1 (by norm_num) (by norm_num) (by norm_num)).1,
   (claim_C2_zero_handling 2 70 1 (by norm_num) (by norm_num) (by norm_num)).2.1⟩

/-- C3: the source transforms coincide with the specification's closed-form
reference definitions (g fixed at 9.8, zero-denominator guard included),
for all inputs with S, m, ρ > 0. -/
theorem claim_C3_functional_spec (cl cd vxs vys s m rho : ℝ)
    (hs : 0 < s) (hm : 0 < m) (hrho : 0 < rho) :
    ((coeffToSS cl cd s m rho).vxs, (coeffToSS cl cd s m rho).vys) =
      coefficientsToSpeedsSpec cl cd s m rho ∧
    ((ssToCoeff vxs vys s m rho).cl, (ssToCoeff vxs vys s m rho).cd) =
      speedsToCoefficientsSpec vxs vys s m rho := by
  constructor
  · rw [coeffToSS_def]
    unfold coefficientsToSpeedsSpec calculateK GRAVITY
    simp only [pow_two]
    split_ifs <;> simp
  · rw [ssToCoeff_def]
    unfold speedsToCoefficientsSpec calculateK GRAVITY
    simp only [pow_two]
    split_ifs <;> simp

/-- Witness for C3 at cl = 0.486, cd = 0.485, vxs = 3, vys = 4, S = 2, m = 70, ρ = 1. -/
theorem claim_C3_functional_spec_witness :
    ((coeffToSS 0.486 0.485 2 70 1).vxs, (coeffToSS 0.486 0.485 2 70 1).vys) =
      coefficientsToSpeedsSpec 0.486 0.485 2 70 1 ∧
    ((ssToCoeff 3 4 2 70 1).cl, (ssToCoeff 3 4 2 70 1).cd) =
      speedsToCoefficientsSpec 3 4 2 70 1 :=
  claim_C3_functional_spec 0.486 0.485 3 4 2 70 1 (by norm_num) (by norm_num) (by norm_num)

/-! ## Easing: boundary values, monotonicity, the stitch point, and the
discontinuity of `easeZoom` -/

theorem easeZoom_zero : easeZoom 0 = 0 := by
  rw [easeZoom, if_pos (by norm_num : (0 : ℝ) < 0.5)]
  norm_num

theorem easeZoom_one : easeZoom 1 = 1 := by
  rw [easeZoom, if_neg (by norm_num : ¬ (1 : ℝ) < 0.5)]
  norm_num

theorem easeZoom_lt_half {t : ℝ} (h : t < 0.5) : easeZoom t < 1 / 2 := by
  rw [easeZoom, if_pos h]
  have := Real.rpow_pos_of_pos (by norm_num : (0 : ℝ) < 2) (-20 * t)
  nlinarith

theorem easeZoom_gt_half {t : ℝ} (h : ¬ t < 0.5) : 1 / 2 < easeZoom t := by
  rw [easeZoom, if_neg h]
  have := Real.rpow_pos_of_pos (by norm_num : (0 : ℝ) < 2) (20 * (t - 1))
  nlinarith

/-- `easeZoom` skips the value 1/2: both branches stay strictly on their side. -/
theorem easeZoom_ne_half (t : ℝ) : easeZoom t ≠ 1 / 2 := by
  by_cases h : t < 0.5
  · exact (easeZoom_lt_half h).ne
  · exact (easeZoom_gt_half h).ne'

theorem easeZoom_monotone : Monotone easeZoom := by
  intro a b hab
  by_cases ha : a < 0.5
  · by_cases hb : b < 0.5
    · rw [easeZoom, if_pos ha, easeZoom, if_pos hb]
      have h2 : (2 : ℝ) ^ (-20 * b) ≤ (2 : ℝ) ^ (-20 * a) :=
        (Real.rpow_le_rpow_left_iff (by norm_num)).2 (by linarith)
      linarith
    · exact le_of_lt (lt_trans (easeZoom_lt_half ha) (easeZoom_gt_half hb))
  · have hb : ¬ b < 0.5 := fun hcon => ha (lt_of_le_of_lt hab hcon)
    rw [easeZoom, if_neg ha, easeZoom, if_neg hb]
    have h2 : (2 : ℝ) ^ (20 * (a - 1)) ≤ (2 : ℝ) ^ (20 * (b - 1)) :=
      (Real.rpow_le_rpow_left_iff (by norm_num)).2 (by linarith)
    linarith

theorem easeInOutExpo_zero : easeInOutExpo 0 = 0 := by
  rw [easeInOutExpo, if_pos rfl]

theorem easeInOutExpo_one : easeInOutExpo 1 = 1 := by
  rw [easeInOutExpo, if_neg (by norm_num), if_pos rfl]

theorem easeInOutExpo_half : easeInOutExpo (1 / 2) = 1 / 2 := by
  rw [easeInOutExpo, if_neg (by norm_num), if_neg (by norm_num),
    if_neg (by norm_num : ¬ (1 / 2 : ℝ) < 0.5)]
  norm_num

theorem easeInOutExpo_nonneg {t : ℝ} (ht0 : 0 ≤ t) (ht1 : t ≤ 1) :
    0 ≤ easeInOutExpo t := by
  rw [easeInOutExpo]
  split_ifs with h0 h1 hlt
  · exact le_rfl
  · norm_num
  · have := Real.rpow_pos_of_pos (by norm_num : (0 : ℝ) < 2) (30 * t - 15)
    nlinarith
  · have hle : (2 : ℝ) ^ (-30 * t + 15) ≤ 1 := by
      apply Real.rpow_le_one_of_one_le_of_nonpos (by norm_num)
      push_neg at hlt
      nlinarith
    nlinarith

theorem easeInOutExpo_le_one {t : ℝ} (ht0 : 0 ≤ t) (ht1 : t ≤ 1) :
    easeInOutExpo t ≤ 1 := by
  rw [easeInOutExpo]
  split_ifs with h0 h1 hlt
  · norm_num
  · exact le_rfl
  · have hlt1 : (2 : ℝ) ^ (30 * t - 15) < 1 := by
      apply Real.rpow_lt_one_of_one_lt_of_neg (by norm_num)
      nlinarith
    nlinarith
  · have := Real.rpow_pos_of_pos (by norm_num : (0 : ℝ) < 2) (-30 * t + 15)
    nlinarith

theorem easeInOutExpo_monotoneOn : MonotoneOn easeInOutExpo (Set.Icc (0 : ℝ) 1) := by
  intro a ha b hb hab
  by_cases ha0 : a = 0
  · subst ha0
    rw [easeInOutExpo_zero]
    exact easeInOutExpo_nonneg hb.1 hb.2
  by_cases hb1 : b = 1
  · subst hb1
    rw [easeInOutExpo_one]
    exact easeInOutExpo_le_one ha.1 ha.2
  have hapos : 0 < a := lt_of_le_of_ne ha.1 (Ne.symm ha0)
  have hb0 : b ≠ 0 := by
    intro h
    subst h
    exact absurd (le_antisymm hab hapos.le) ha0
  have hblt : b < 1 := lt_of_le_of_ne hb.2 hb1
  have ha1 : a ≠ 1 := by
    intro h
    subst h
    exact absurd hab (not_le.2 hblt)
  rw [easeInOutExpo, if_neg ha0, if_neg ha1, easeInOutExpo, if_neg hb0, if_neg hb1]
  by_cases hah : a < 0.5
  · by_cases hbh : b < 0.5
    · rw [if_pos hah, if_pos hbh]
      have h2 : (2 : ℝ) ^ (30 * a - 15) ≤ (2 : ℝ) ^ (30 * b - 15) :=
        (Real.rpow_le_rpow_left_iff (by norm_num)).2 (by linarith)
      linarith
    · rw [if_pos hah, if_neg hbh]
      have hA : (2 : ℝ) ^ (30 * a - 15) < 1 :=
        Real.rpow_lt_one_of_one_lt_of_neg (by norm_num) (by nlinarith)
      have hB : (2 : ℝ) ^ (-30 * b + 15) ≤ 1 := by
        apply Real.rpow_le_one_of_one_le_of_nonpos (by norm_num)
        push_neg at hbh
        nlinarith
      nlinarith
  · have hbh : ¬ b < 0.5 := fun hcon => hah (lt_of_le_of_lt hab hcon)
    rw [if_neg hah, if_neg hbh]
    have h2 : (2 : ℝ) ^ (-30 * b + 15) ≤ (2 : ℝ) ^ (-30 * a + 15) :=
      (Real.rpow_le_rpow_left_iff (by norm_num)).2 (by linarith)
    linarith

/-- The primary ease is squeezed between the two analytic halves, which glue
continuously at the stitch point t = 1/2. -/
theorem easeInOutExpo_continuousAt_half : ContinuousAt easeInOutExpo (1 / 2) := by
  have hcont2 : ∀ c d : ℝ, Continuous fun t : ℝ => (2 : ℝ) ^ (c * t + d) := by
    intro c d
    have heq : (fun t : ℝ => (2 : ℝ) ^ (c * t + d)) =
        fun t : ℝ => Real.exp (Real.log 2 * (c * t + d)) := by
      funext t
      rw [Real.rpow_def_of_pos (by norm_num : (0 : ℝ) < 2)]
    rw [heq]
    exact Real.continuous_exp.comp
      (continuous_const.mul ((continuous_const.mul continuous_id).add continuous_const))
  have hA : Continuous fun t : ℝ => 0.5 * (2 : ℝ) ^ (30 * t + -15) :=
    continuous_const.mul (hcont2 30 (-15))
  have hB : Continuous fun t : ℝ => 1 - 0.5 * (2 : ℝ) ^ (-30 * t + 15) :=
    continuous_const.sub (continuous_const.mul (hcont2 (-30) 15))
  have hlow : ∀ t : ℝ,
      min (0.5 * (2 : ℝ) ^ (30 * t + -15)) (1 - 0.5 * (2 : ℝ) ^ (-30 * t + 15)) ≤
        easeInOutExpo t := by
    intro t
    rw [easeInOutExpo]
    split_ifs with h0 h1 hlt
    · subst h0
      refine le_trans (min_le_right _ _) ?_
      have h15 : (2 : ℝ) ^ (-30 * (0 : ℝ) + 15) = 32768 := by
        rw [show (-30 * (0 : ℝ) + 15) = ((15 : ℕ) : ℝ) by norm_num, Real.rpow_natCast]
        norm_num
      rw [h15]
      norm_num
    · subst h1
      refine le_trans (min_le_right _ _) ?_
      have := Real.rpow_pos_of_pos (by norm_num : (0 : ℝ) < 2) (-30 * (1 : ℝ) + 15)
      nlinarith
    · refine le_trans (min_le_left _ _) ?_
      rw [show (30 * t + -15 : ℝ) = 30 * t - 15 by ring]
    · exact min_le_right _ _
  have hhigh : ∀ t : ℝ, easeInOutExpo t ≤
      max (0.5 * (2 : ℝ) ^ (30 * t + -15)) (1 - 0.5 * (2 : ℝ) ^ (-30 * t + 15)) := by
    intro t
    rw [easeInOutExpo]
    split_ifs with h0 h1 hlt
    · subst h0
      refine le_trans ?_ (le_max_left _ _)
      have := Real.rpow_pos_of_pos (by norm_num : (0 : ℝ) < 2) (30 * (0 : ℝ) + -15)
      nlinarith
    · subst h1
      refine le_trans ?_ (le_max_left _ _)
      have h15 : (2 : ℝ) ^ (30 * (1 : ℝ) + -15) = 32768 := by
        rw [show (30 * (1 : ℝ) + -15) = ((15 : ℕ) : ℝ) by norm_num, Real.rpow_natCast]
        norm_num
      rw [h15]
      norm_num
    · refine le_trans ?_ (le_max_left _ _)
      rw [show (30 * t + -15 : ℝ) = 30 * t - 15 by ring]
    · exact le_max_right _ _
  have hAval : 0.5 * (2 : ℝ) ^ (30 * (1 / 2 : ℝ) + -15) = 1 / 2 := by
    rw [show (30 * (1 / 2 : ℝ) + -15) = 0 by norm_num, Real.rpow_zero]
    norm_num
  have hBval : 1 - 0.5 * (2 : ℝ) ^ (-30 * (1 / 2 : ℝ) + 15) = 1 / 2 := by
    rw [show (-30 * (1 / 2 : ℝ) + 15) = 0 by norm_num, Real.rpow_zero]
    norm_num
  have hminT : Filter.Tendsto
      (fun t : ℝ => min (0.5 * (2 : ℝ) ^ (30 * t + -15)) (1 - 0.5 * (2 : ℝ) ^ (-30 * t + 15)))
      (nhds (1 / 2)) (nhds (1 / 2)) := by
    have h1 : ContinuousAt
        (fun t : ℝ => min (0.5 * (2 : ℝ) ^ (30 * t + -15)) (1 - 0.5 * (2 : ℝ) ^ (-30 * t + 15)))
        (1 / 2) := (hA.min hB).continuousAt
    have h2 : (fun t : ℝ =>
        min (0.5 * (2 : ℝ) ^ (30 * t + -15)) (1 - 0.5 * (2 : ℝ) ^ (-30 * t + 15))) (1 / 2)
          = 1 / 2 := by
      show min (0.5 * (2 : ℝ) ^ (30 * (1 / 2 : ℝ) + -15))
        (1 - 0.5 * (2 : ℝ) ^ (-30 * (1 / 2 : ℝ) + 15)) = 1 / 2
      rw [hAval, hBval, min_self]
    unfold ContinuousAt at h1
    rw [h2] at h1
    exact h1
  have hmaxT : Filter.Tendsto
      (fun t : ℝ => max (0.5 * (2 : ℝ) ^ (30 * t + -15)) (1 - 0.5 * (2 : ℝ) ^ (-30 * t + 15)))
      (nhds (1 / 2)) (nhds (1 / 2)) := by
    have h1 : ContinuousAt
        (fun t : ℝ => max (0.5 * (2 : ℝ) ^ (30 * t + -15)) (1 - 0.5 * (2 : ℝ) ^ (-30 * t + 15)))
        (1 / 2) := (hA.max hB).continuousAt
    have h2 : (fun t : ℝ =>
        max (0.5 * (2 : ℝ) ^ (30 * t + -15)) (1 - 0.5 * (2 : ℝ) ^ (-30 * t + 15))) (1 / 2)
          = 1 / 2 := by
      show max (0.5 * (2 : ℝ) ^ (30 * (1 / 2 : ℝ) + -15))
        (1 - 0.5 * (2 : ℝ) ^ (-30 * (1 / 2 : ℝ) + 15)) = 1 / 2
      rw [hAval, hBval, max_self]
    unfold ContinuousAt at h1
    rw [h2] at h1
    exact h1
  rw [ContinuousAt, easeInOutExpo_half]
  exact tendsto_of_tendsto_of_tendsto_of_le_of_le hminT hmaxT hlow hhigh

theorem two_rpow_neg_ten : (2 : ℝ) ^ (-(10 : ℝ)) = 1 / 1024 := by
  rw [show (-(10 : ℝ)) = -((10 : ℕ) : ℝ) by norm_num,
    Real.rpow_neg (by norm_num : (0 : ℝ) ≤ 2), Real.rpow_natCast]
  norm_num

theorem two_rpow_neg_fifteen : (2 : ℝ) ^ (-(15 : ℝ)) = 1 / 32768 := by
  rw [show (-(15 : ℝ)) = -((15 : ℕ) : ℝ) by norm_num,
    Real.rpow_neg (by norm_num : (0 : ℝ) ≤ 2), Real.rpow_natCast]
  norm_num

theorem two_rpow_neg_sixteen : (2 : ℝ) ^ (-(16 : ℝ)) = 1 / 65536 := by
  rw [show (-(16 : ℝ)) = -((16 : ℕ) : ℝ) by norm_num,
    Real.rpow_neg (by norm_num : (0 : ℝ) ≤ 2), Real.rpow_natCast]
  norm_num

/-- The left branch of `easeZoom` stays below 1/2 − 2⁻¹¹. -/
theorem easeZoom_left_gap {t : ℝ} (h : t < 0.5) : easeZoom t < 1 / 2 - 1 / 2048 := by
  rw [easeZoom, if_pos h]
  have h2 : (2 : ℝ) ^ (-(10 : ℝ)) < (2 : ℝ) ^ (-20 * t) :=
    (Real.rpow_lt_rpow_left_iff (by norm_num)).2 (by linarith)
  rw [two_rpow_neg_ten] at h2
  linarith

/-- The right branch of `easeZoom` stays at or above 1/2 + 2⁻¹¹. -/
theorem easeZoom_right_gap {t : ℝ} (h : ¬ t < 0.5) : 1 / 2 + 1 / 2048 ≤ easeZoom t := by
  rw [easeZoom, if_neg h]
  push_neg at h
  have h2 : (2 : ℝ) ^ (-(10 : ℝ)) ≤ (2 : ℝ) ^ (20 * (t - 1)) :=
    (Real.rpow_le_rpow_left_iff (by norm_num)).2 (by linarith)
  rw [two_rpow_neg_ten] at h2
  linarith

/-- The zoom ease's value at the stitch point itself. -/
theorem easeZoom_half_val : easeZoom (1 / 2) = 1 / 2 + 1 / 2048 := by
  rw [easeZoom, if_neg (by norm_num : ¬ (1 / 2 : ℝ) < 0.5),
    show (20 * ((1 : ℝ) / 2 - 1)) = -(10 : ℝ) by norm_num, two_rpow_neg_ten]
  norm_num

/-- On (0, 1] the primary ease stays strictly above 2⁻¹⁶ — combined with
`easeInOutExpo 0 = 0` this is the jump at the t = 0 guard. -/
theorem easeInOutExpo_gap_lo {t : ℝ} (ht0 : 0 < t) (ht1 : t ≤ 1) :
    1 / 65536 < easeInOutExpo t := by
  rw [easeInOutExpo]
  split_ifs with h0 h1 hlt
  · exact absurd h0 ht0.ne'
  · norm_num
  · have h2 : (2 : ℝ) ^ (-(15 : ℝ)) < (2 : ℝ) ^ (30 * t - 15) :=
      (Real.rpow_lt_rpow_left_iff (by norm_num)).2 (by linarith)
    rw [two_rpow_neg_fifteen] at h2
    linarith
  · have hle : (2 : ℝ) ^ (-30 * t + 15) ≤ 1 := by
      apply Real.rpow_le_one_of_one_le_of_nonpos (by norm_num)
      push_neg at hlt
      nlinarith
    linarith

/-- On [0, 1) the primary ease stays strictly below 1 − 2⁻¹⁶ — combined with
`easeInOutExpo 1 = 1` this is the jump at the t = 1 guard. -/
theorem easeInOutExpo_gap_hi {t : ℝ} (ht0 : 0 ≤ t) (ht1 : t < 1) :
    easeInOutExpo t < 1 - 1 / 65536 := by
  rw [easeInOutExpo]
  split_ifs with h0 h1 hlt
  · norm_num
  · exact absurd h1 ht1.ne
  · have hlt1 : (2 : ℝ) ^ (30 * t - 15) < 1 :=
      Real.rpow_lt_one_of_one_lt_of_neg (by norm_num) (by nlinarith)
    linarith
  · have h2 : (2 : ℝ) ^ (-(15 : ℝ)) < (2 : ℝ) ^ (-30 * t + 15) :=
      (Real.rpow_lt_rpow_left_iff (by norm_num)).2 (by linarith)
    rw [two_rpow_neg_fifteen] at h2
    linarith

/-- C5 counterexample: NEITHER easing function is continuous on [0, 1], so
the claim that both are is false.  `easeZoom` jumps over the value 1/2 at the
stitch point t = 0.5; `easeInOutExpo` jumps over the value 2⁻¹⁶ at the t = 0
guard (its left branch stays strictly above 2⁻¹⁶ while the guard value is 0).
Both refutations go through the intermediate value theorem. -/
theorem claim_C5_counterexample :
    ¬ ContinuousOn easeZoom (Set.Icc (0 : ℝ) 1) ∧
    ¬ ContinuousOn easeInOutExpo (Set.Icc (0 : ℝ) 1) := by
  constructor
  · intro h
    have h01 : (1 / 2 : ℝ) ∈ Set.Icc (easeZoom 0) (easeZoom 1) := by
      rw [easeZoom_zero, easeZoom_one]
      norm_num
    obtain ⟨t, _, hval⟩ := intermediate_value_Icc (by norm_num : (0 : ℝ) ≤ 1) h h01
    exact easeZoom_ne_half t hval
  · intro h
    have h01 : (1 / 65536 : ℝ) ∈ Set.Icc (easeInOutExpo 0) (easeInOutExpo 1) := by
      rw [easeInOutExpo_zero, easeInOutExpo_one]
      norm_num
    obtain ⟨t, ht, hval⟩ := intermediate_value_Icc (by norm_num : (0 : ℝ) ≤ 1) h h01
    rcases eq_or_lt_of_le ht.1 with h0 | h0
    · rw [← h0, easeInOutExpo_zero] at hval
      norm_num at hval
    · exact absurd hval (ne_of_gt (easeInOutExpo_gap_lo h0 ht.2))

/-- C5 (amended): both easing functions have exact boundary values 0 and 1 and
are monotone non-decreasing on [0, 1], and the primary ease is continuous at
the stitch point t = 0.5 where its two analytic halves meet at the midpoint
value 1/2; but neither function is continuous on all of [0, 1]: the zoom ease
jumps by 2⁻¹⁰ at t = 0.5 (its left branch stays below 1/2 − 2⁻¹¹ while its
value there is exactly 1/2 + 2⁻¹¹, so it never attains 1/2), and the primary
ease jumps by 2⁻¹⁶ at each endpoint guard (its interior values stay strictly
between 2⁻¹⁶ and 1 − 2⁻¹⁶ while the guards return exactly 0 and 1).  The last
two conjuncts identify the stated jump sizes 1/1024 = 2⁻¹⁰ and
1/65536 = 2⁻¹⁶. -/
theorem claim_C5_easing :
    easeInOutExpo 0 = 0 ∧ easeInOutExpo 1 = 1 ∧ easeZoom 0 = 0 ∧ easeZoom 1 = 1 ∧
    MonotoneOn easeInOutExpo (Set.Icc (0 : ℝ) 1) ∧ Monotone easeZoom ∧
    ContinuousAt easeInOutExpo (1 / 2) ∧ easeInOutExpo (1 / 2) = 1 / 2 ∧
    (¬ ∃ t : ℝ, easeZoom t = 1 / 2) ∧
    (∀ t : ℝ, t < 0.5 → easeZoom t < 1 / 2 - 1 / 2048) ∧
    easeZoom (1 / 2) = 1 / 2 + 1 / 2048 ∧
    (∀ t : ℝ, ¬ t < 0.5 → 1 / 2 + 1 / 2048 ≤ easeZoom t) ∧
    (∀ t : ℝ, 0 < t → t ≤ 1 → 1 / 65536 < easeInOutExpo t) ∧
    (∀ t : ℝ, 0 ≤ t → t < 1 → easeInOutExpo t < 1 - 1 / 65536) ∧
    (1 / 2 + 1 / 2048) - (1 / 2 - 1 / 2048) = (2 : ℝ) ^ (-(10 : ℝ)) ∧
    (1 / 65536 : ℝ) = (2 : ℝ) ^ (-(16 : ℝ)) :=
  ⟨easeInOutExpo_zero, easeInOutExpo_one, easeZoom_zero, easeZoom_one,
   easeInOutExpo_monotoneOn, easeZoom_monotone, easeInOutExpo_continuousAt_half,
   easeInOutExpo_half, fun ⟨t, ht⟩ => easeZoom_ne_half t ht,
   fun _ h => easeZoom_left_gap h, easeZoom_half_val,
   fun _ h => easeZoom_right_gap h,
   fun _ h0 h1 => easeInOutExpo_gap_lo h0 h1,
   fun _ h0 h1 => easeInOutExpo_gap_hi h0 h1,
   by rw [two_rpow_neg_ten]; norm_num,
   by rw [two_rpow_neg_sixteen]⟩

/-! ## Animation state machine: transition completion and re-entrancy -/

/-- Any frame at or past `startTime + duration` snaps the state to the target
idle state, and the frame loop stops there. -/
theorem runAnimation_complete (tr : Transition) (st : ChartAnim) (ts : List ℝ)
    (h : ∃ u ∈ ts, tr.startTime + duration ≤ u) :
    runAnimation tr st ts = ⟨tr.targetView, false, tr.targetProgress⟩ := by
  induction ts generalizing st with
  | nil =>
      obtain ⟨u, hu, _⟩ := h
      exact absurd hu (List.not_mem_nil u)
  | cons time rest ih =>
      by_cases hc : min ((time - tr.startTime) / duration) 1 < 1
      · have hrest : ∃ u ∈ rest, tr.startTime + duration ≤ u := by
          obtain ⟨u, hu, hle⟩ := h
          rcases List.mem_cons.1 hu with rfl | hu'
          · exfalso
            have h1 : (1 : ℝ) ≤ (u - tr.startTime) / duration := by
              rw [le_div_iff₀ (by norm_num [duration] : (0 : ℝ) < duration)]
              linarith
            rw [min_eq_right h1] at hc
            exact absurd hc (lt_irrefl 1)
          · exact ⟨u, hu', hle⟩
        simp only [runAnimation]
        rw [if_pos hc]
        exact ih _ hrest
      · simp only [runAnimation]
        rw [if_neg hc]
        simp only [animateFrame]
        rw [if_neg hc]

/-- C6: a transition started from the idle speed state, run to full elapsed
duration, yields exactly the idle state with progress 1 and running flag
false; a subsequent toggle, also run to completion, yields exactly progress 0
and running flag false.  Progress is snapped to the target value (0 or 1), not
left at an eased near-value. -/
theorem claim_C6_transition_completion (t0 t1 : ℝ) (ts ts' : List ℝ)
    (h : ∃ u ∈ ts, t0 + duration ≤ u) (h' : ∃ u ∈ ts', t1 + duration ≤ u) :
    switchCoordinateSystem ⟨View.speed, false, 0⟩ t0 =
      (⟨View.speed, true, 0⟩, some ⟨View.coeff, 0, 1, t0⟩) ∧
    runAnimation ⟨View.coeff, 0, 1, t0⟩ ⟨View.speed, true, 0⟩ ts =
      ⟨View.coeff, false, 1⟩ ∧
    switchCoordinateSystem ⟨View.coeff, false, 1⟩ t1 =
      (⟨View.coeff, true, 1⟩, some ⟨View.speed, 1, 0, t1⟩) ∧
    runAnimation ⟨View.speed, 1, 0, t1⟩ ⟨View.coeff, true, 1⟩ ts' =
      ⟨View.speed, false, 0⟩ := by
  refine ⟨?_, ?_, ?_, ?_⟩
  · simp [switchCoordinateSystem, animateTransition]
  · exact runAnimation_complete ⟨View.coeff, 0, 1, t0⟩ ⟨View.speed, true, 0⟩ ts h
  · simp [switchCoordinateSystem, animateTransition]
  · exact runAnimation_complete ⟨View.speed, 1, 0, t1⟩ ⟨View.coeff, true, 1⟩ ts' h'

/-- Witness for C6: start at time 0 with a completing frame at 6000, toggle
back at time 10000 with a completing frame at 16000. -/
theorem claim_C6_transition_completion_witness :
    switchCoordinateSystem ⟨View.speed, false, 0⟩ 0 =
      (⟨View.speed, true, 0⟩, some ⟨View.coeff, 0, 1, 0⟩) ∧
    runAnimation ⟨View.coeff, 0, 1, 0⟩ ⟨View.speed, true, 0⟩ [6000] =
      ⟨View.coeff, false, 1⟩ ∧
    switchCoordinateSystem ⟨View.coeff, false, 1⟩ 10000 =
      (⟨View.coeff, true, 1⟩, some ⟨View.speed, 1, 0, 10000⟩) ∧
    runAnimation ⟨View.speed, 1, 0, 10000⟩ ⟨View.coeff, true, 1⟩ [16000] =
      ⟨View.speed, false, 0⟩ :=
  claim_C6_transition_completion 0 10000 [6000] [16000]
    ⟨6000, by simp, by norm_num [duration]⟩
    ⟨16000, by simp, by norm_num [duration]⟩

/-- C7: invoking `switchCoordinateSystem` while a transition is running
(`isAnimating = true`) is a no-op: the state is returned unchanged and no new
transition is started (nothing is queued), so the in-flight transition's
closure (start value, target value, start time) and the animation state are
untouched. -/
theorem claim_C7_switch_noop (st : ChartAnim) (now : ℝ) (h : st.isAnimating = true) :
    switchCoordinateSystem st now = (st, none) := by
  simp [switchCoordinateSystem, h]

/-- Witness for C7 at a mid-transition state. -/
theorem claim_C7_switch_noop_witness :
    switchCoordinateSystem ⟨View.speed, true, 0.37⟩ 123 = (⟨View.speed, true, 0.37⟩, none) :=
  claim_C7_switch_noop ⟨View.speed, true, 0.37⟩ 123 rfl

/-! ## dataLoader.js: malformed samples and the missing-marker error -/

/-- C8 counterexample: a file whose stallpoint array holds one valid sample
and one sample with a non-numeric `cl` field is NOT loaded with the offending
point skipped — `parseStallpointData`'s validation loop throws, `addDataset`
rethrows, and the whole dataset is aborted (the manager is unchanged and no
dataset with the remaining valid point is produced). -/
theorem claim_C8_counterexample :
    addDataset ⟨[], 1⟩ "Aura 6.txt"
      (StallFile.marker
        [⟨Json.num 0.486, Json.num 0.485⟩, ⟨Json.str "x", Json.num 0.5⟩])
      1 2 70 "#ff0000" =
      (⟨[], 1⟩, Except.error "Failed to parse file: Invalid CL/CD values in data") := rfl

/-- C8 (amended): when the marker is present and the array parses but some
sample has a non-numeric `cl` or `cd` field, the whole dataset load aborts
with the validation error and the dataset collection is unchanged; points are
never skipped individually for malformed fields (the per-point try/catch in
`convertToSpeedData` is unreachable for them, since validation precedes it and
`coeffToSS` never throws). -/
theorem claim_C8_abort_on_malformed (mgr : DataSetManager) (fileName : String)
    (data : List RawSample) (rho s m : ℝ) (color : String)
    (h : data.all (fun p => p.cl.isNumber && p.cd.isNumber) = false) :
    addDataset mgr fileName (StallFile.marker data) rho s m color =
      (mgr, Except.error "Failed to parse file: Invalid CL/CD values in data") := by
  have hne : data.isEmpty = false := by
    cases data with
    | nil => simp at h
    | cons a l => rfl
  have h1 : parseStallpointData (StallFile.marker data) =
      Except.error "Failed to parse file: Invalid CL/CD values in data" := by
    unfold parseStallpointData
    simp [hne, h]
  unfold addDataset
  rw [h1]

/-- Witness for the amended C8 at a two-sample file with one malformed entry. -/
theorem claim_C8_abort_on_malformed_witness :
    addDataset ⟨[], 1⟩ "Flight.txt"
      (StallFile.marker [⟨Json.num 0.499, Json.num 0.469⟩, ⟨Json.jnull, Json.num 0.4⟩])
      1 2 70 "#00ff00" =
      (⟨[], 1⟩, Except.error "Failed to parse file: Invalid CL/CD values in data") :=
  claim_C8_abort_on_malformed ⟨[], 1⟩ "Flight.txt"
    [⟨Json.num 0.499, Json.num 0.469⟩, ⟨Json.jnull, Json.num 0.4⟩] 1 2 70 "#00ff00" rfl

/-- C9: file content without a `stallpoint:` marker makes `addDataset` fail
with the descriptive parse error, and the dataset collection (and nextId
counter) is left completely unchanged. -/
theorem claim_C9_missing_marker (mgr : DataSetManager) (fileName : String)
    (rho s m : ℝ) (color : String) :
    addDataset mgr fileName StallFile.noMarker rho s m color =
      (mgr, Except.error "Failed to parse file: No stallpoint data found in file") := rfl

/-! ## axisMapping.js: preset fallback and the prototype-chain gap -/

/-- C10 counterexample: "toString" is not one of the defined axis-mapping
presets, yet `setPreset "toString"` does NOT fall back to the default: the
bracket lookup hits the inherited `Object.prototype.toString` (truthy), so
`!preset` is false, the spread of the inherited function (no own enumerable
properties) is installed as the config, and the reported preset name is
"toString", not "default". -/
theorem claim_C10_counterexample :
    setPreset "toString" = ⟨AxisConfig.emptySpread, "toString"⟩ ∧
    getPresetName (setPreset "toString") ≠ "default" ∧
    (setPreset "toString").config ≠ AxisConfig.preset presetDefault :=
  ⟨rfl, by decide, by decide⟩

/-- C10 (amended): `setPreset` never fails; for a name that is neither a
defined preset nor an `Object.prototype` property name, the lookup is
`undefined` and it falls back to the default preset, reporting 'default'; for
a defined preset name it installs that preset and reports the given name; but
for a name inherited from `Object.prototype` (e.g. 'constructor', 'toString',
'hasOwnProperty', '__proto__') the lookup is truthy, so `setPreset` installs
the empty spread of the inherited value and reports that name instead of
falling back. -/
theorem claim_C10_preset_fallback (presetName : String) :
    (AXIS_PRESETS presetName = JsLookup.undefined →
      (setPreset presetName).config = AxisConfig.preset presetDefault ∧
      AXIS_PRESETS "default" = JsLookup.own presetDefault ∧
      getPresetName (setPreset presetName) = "default") ∧
    (∀ p, AXIS_PRESETS presetName = JsLookup.own p →
      (setPreset presetName).config = AxisConfig.preset p ∧
      getPresetName (setPreset presetName) = presetName) ∧
    (AXIS_PRESETS presetName = JsLookup.inherited →
      (setPreset presetName).config = AxisConfig.emptySpread ∧
      getPresetName (setPreset presetName) = presetName) := by
  refine ⟨?_, ?_, ?_⟩
  · intro h
    unfold setPreset
    rw [h]
    exact ⟨rfl, rfl, rfl⟩
  · intro p h
    unfold setPreset
    rw [h]
    exact ⟨rfl, rfl⟩
  · intro h
    unfold setPreset
    rw [h]
    exact ⟨rfl, rfl⟩

/-- Witness for C10: "bogus" (neither preset nor prototype member) falls back
to the default; "polar" installs the polar preset; "constructor" hits the
prototype chain and does not fall back. -/
theorem claim_C10_preset_fallback_witness :
    ((setPreset "bogus").config = AxisConfig.preset presetDefault ∧
      AXIS_PRESETS "default" = JsLookup.own presetDefault ∧
      getPresetName (setPreset "bogus") = "default") ∧
    ((setPreset "polar").config = AxisConfig.preset presetPolar ∧
      getPresetName (setPreset "polar") = "polar") ∧
    ((setPreset "constructor").config = AxisConfig.emptySpread ∧
      getPresetName (setPreset "constructor") = "constructor") :=
  ⟨(claim_C10_preset_fallback "bogus").1 rfl,
   (claim_C10_preset_fallback "polar").2.1 presetPolar rfl,
   (claim_C10_preset_fallback "constructor").2.2 rfl⟩

/-! ## generateGrid: the curve pairing invariant -/

/-- Every speed-driven line is paired: same length, and each coefficient point
is the `ssToCoeff` image of its speed point. -/
theorem speedGridLine_paired (s m rho : ℝ) (pts : List (ℚ × ℚ))
    (color ty label : String) (lv : ℚ) :
    Paired s m rho (speedGridLine s m rho pts color ty label lv) := by
  constructor
  · simp [speedGridLine]
  · intro i hsb hcb
    left
    simp [speedGridLine, List.getElem_map]

/-- Every coefficient-driven line is paired: same length, and each speed point
is the (mph-scaled) `coeffToSS` image of its coefficient point. -/
theorem coeffGridLine_paired (s m rho : ℝ) (pts : List (ℚ × ℚ))
    (color ty label : String) (lv : ℚ) :
    Paired s m rho (coeffGridLine s m rho pts color ty label lv) := by
  constructor
  · simp [coeffGridLine]
  · intro i hsb hcb
    right
    simp [coeffGridLine, List.getElem_map]

/-- C4: for any S, m, ρ > 0, every curve produced by `generateGrid` has
speed-point and coefficient-point sequences of equal length, with index i in
one the physics-transform image of index i in the other (exactly, in the
real-number model — hence within tolerance), in the direction the curve was
generated. -/
theorem claim_C4_grid_pairing (s m rho : ℝ) (colors : Colors) (am : AxisPreset)
    (hs : 0 < s) (hm : 0 < m) (hrho : 0 < rho) :
    ∀ L ∈ generateGrid s m rho colors am, Paired s m rho L := by
  have hmap : ∀ (qs : List ℚ) (f : ℚ → GridLine), (∀ q, Paired s m rho (f q)) →
      ∀ L ∈ qs.map f, Paired s m rho L := by
    intro qs f hf L hL
    obtain ⟨q, _, rfl⟩ := List.mem_map.1 hL
    exact hf q
  have hflat : ∀ {α : Type} (qs : List α) (fs : α → List GridLine),
      (∀ q L, L ∈ fs q → Paired s m rho L) →
      ∀ L ∈ qs.flatMap fs, Paired s m rho L := by
    intro α qs fs hf L hL
    obtain ⟨q, _, hL⟩ := List.mem_flatMap.1 hL
    exact hf q L hL
  intro L hL
  simp only [generateGrid, List.mem_append] at hL
  rcases hL with ((((((((((hL | hL) | hL) | hL) | hL) | hL) | hL) | hL) | hL) | hL) | hL)
  · exact hmap _ _ (fun v => speedGridLine_paired s m rho _ _ _ _ _) L hL
  · exact hmap _ _ (fun v => speedGridLine_paired s m rho _ _ _ _ _) L hL
  · exact hmap _ _ (fun v => speedGridLine_paired s m rho _ _ _ _ _) L hL
  · exact hmap _ _ (fun v => speedGridLine_paired s m rho _ _ _ _ _) L hL
  · refine hflat _ _ ?_ L hL
    intro q L' hL'
    rcases List.mem_cons.1 hL' with rfl | hL'
    · exact coeffGridLine_paired s m rho _ _ _ _ _
    · split_ifs at hL' with hq0
      · rcases List.mem_cons.1 hL' with rfl | hL'
        · exact coeffGridLine_paired s m rho _ _ _ _ _
        · rcases List.mem_cons.1 hL' with rfl | hL'
          · exact coeffGridLine_paired s m rho _ _ _ _ _
          · exact absurd hL' (List.not_mem_nil L')
      · exact absurd hL' (List.not_mem_nil L')
  · refine hflat _ _ ?_ L hL
    intro q L' hL'
    rcases List.mem_cons.1 hL' with rfl | hL'
    · exact coeffGridLine_paired s m rho _ _ _ _ _
    · split_ifs at hL' with hq0
      · rcases List.mem_cons.1 hL' with rfl | hL'
        · exact coeffGridLine_paired s m rho _ _ _ _ _
        · rcases List.mem_cons.1 hL' with rfl | hL'
          · exact coeffGridLine_paired s m rho _ _ _ _ _
          · exact absurd hL' (List.not_mem_nil L')
      · exact absurd hL' (List.not_mem_nil L')
  · refine hflat _ _ ?_ L hL
    intro q L' hL'
    rcases List.mem_cons.1 hL' with rfl | hL'
    · exact coeffGridLine_paired s m rho _ _ _ _ _
    rcases List.mem_cons.1 hL' with rfl | hL'
    · exact coeffGridLine_paired s m rho _ _ _ _ _
    rcases List.mem_cons.1 hL' with rfl | hL'
    · exact coeffGridLine_paired s m rho _ _ _ _ _
    rcases List.mem_cons.1 hL' with rfl | hL'
    · exact coeffGridLine_paired s m rho _ _ _ _ _
    exact absurd hL' (List.not_mem_nil L')
  · refine hflat _ _ ?_ L hL
    intro q L' hL'
    rcases List.mem_cons.1 hL' with rfl | hL'
    · exact coeffGridLine_paired s m rho _ _ _ _ _
    rcases List.mem_cons.1 hL' with rfl | hL'
    · exact coeffGridLine_paired s m rho _ _ _ _ _
    rcases List.mem_cons.1 hL' with rfl | hL'
    · exact coeffGridLine_paired s m rho _ _ _ _ _
    rcases List.mem_cons.1 hL' with rfl | hL'
    · exact coeffGridLine_paired s m rho _ _ _ _ _
    exact absurd hL' (List.not_mem_nil L')
  · refine hflat _ _ ?_ L hL
    intro q L' hL'
    rcases List.mem_cons.1 hL' with rfl | hL'
    · exact coeffGridLine_paired s m rho _ _ _ _ _
    rcases List.mem_cons.1 hL' with rfl | hL'
    · exact coeffGridLine_paired s m rho _ _ _ _ _
    exact absurd hL' (List.not_mem_nil L')
  · refine hflat _ _ ?_ L hL
    intro q L' hL'
    rcases List.mem_cons.1 hL' with rfl | hL'
    · exact coeffGridLine_paired s m rho _ _ _ _ _
    rcases List.mem_cons.1 hL' with rfl | hL'
    · exact coeffGridLine_paired s m rho _ _ _ _ _
    exact absurd hL' (List.not_mem_nil L')
  · refine hflat _ _ ?_ L hL
    intro q L' hL'
    rcases List.mem_cons.1 hL' with rfl | hL'
    · exact speedGridLine_paired s m rho _ _ _ _ _
    rcases List.mem_cons.1 hL' with rfl | hL'
    · exact speedGridLine_paired s m rho _ _ _ _ _
    rcases List.mem_cons.1 hL' with rfl | hL'
    · exact speedGridLine_paired s m rho _ _ _ _ _
    rcases List.mem_cons.1 hL' with rfl | hL'
    · exact speedGridLine_paired s m rho _ _ _ _ _
    exact absurd hL' (List.not_mem_nil L')

/-- Witness for C4: the first generated curve (the vys = −150 outer speed grid
line) with the source's default colors and axis preset, at S = 2, m = 70,
ρ = 1. -/
theorem claim_C4_grid_pairing_witness :
    Paired 2 70 1
      (speedGridLine 2 70 1 ((jsRange (-150) 5 150).map fun vxs => (vxs, -150))
        "#e74c3c" "horizontal"
        (getSpeedLabel presetDefault Axis.yAxis ++ "=" ++ toString (-150 : ℚ)) (-150)) := by
  apply claim_C4_grid_pairing 2 70 1
    ⟨"#9b59b6", "#27ae60", "#3498db", "#e74c3c", "#e74c3c", "#f39c12", "#27ae60",
      "#ffffff", "#000000"⟩
    presetDefault (by norm_num) (by norm_num) (by norm_num)
  simp only [generateGrid, List.mem_append]
  iterate 10 left
  refine List.mem_map.2 ⟨-150, ?_, rfl⟩
  decide

end Sustained
